import Mathlib

/-!
Shallow embedding of `src/arch/arc/core/thread.c` (ARCv2 thread creation and
user-mode transition) and proofs about its stack-layout and initial-frame
arithmetic.

Pointers and 32-bit registers are modelled as `Nat`; stores into `u32_t`
fields apply `% 2^32` where the C code casts.  Compile-time configuration
(`CONFIG_USERSPACE`, `CONFIG_ARC_MPU_VER`, `CONFIG_ARC_HAS_SECURE`,
`CONFIG_ARC_STACK_CHECKING`, sizes and alignments) is an explicit `Config`
record, so the two C functions become pure functions of their inputs and the
configuration.
-/

/-- 2^32, the modulus of `u32_t` arithmetic. -/
def U32 : Nat := 2 ^ 32

/-- A store into a `u32_t` field: the C cast `(u32_t)x`. -/
def u32 (n : Nat) : Nat := n % U32

/-- `u32_t` subtraction `a - b` with wrap-around. -/
def sub32 (a b : Nat) : Nat := (a % U32 + U32 - b % U32) % U32

/-- Modelled from the spec: the thread-option bit requesting a user-mode
thread (`K_USER`), a kernel header constant not present under `src/`. -/
def K_USER : Nat := 4

/-- Modelled from the spec: ARCv2 `STATUS32` stack-checking bit
(`_ARC_V2_STATUS32_SC`), an architecture constant not present under `src/`. -/
def ARC_V2_STATUS32_SC : Nat := 2 ^ 14

/-- Modelled from the spec: ARCv2 `STATUS32` user-sleep bit
(`_ARC_V2_STATUS32_US`), an architecture constant not present under `src/`. -/
def ARC_V2_STATUS32_US : Nat := 2 ^ 20

/-- Modelled from the spec: ARCv2 `STATUS32.E` interrupt-priority-threshold
field (`_ARC_V2_STATUS32_E(x)`), an architecture macro not present under
`src/`. -/
def ARC_V2_STATUS32_E (x : Nat) : Nat := x <<< 1

/-- The default interrupt priority written into the initial frame; the source
comment fixes it: "For now set the interrupt priority to 15". -/
def ARC_V2_DEF_IRQ_LEVEL : Nat := 15

/-- Modelled from the spec: the relinquish-cause tag for a cooperative switch
(`_CAUSE_COOP`), a kernel constant not present under `src/`; its numeric value
is irrelevant to the claims. -/
def CAUSE_COOP : Nat := 0

/-- Compile-time configuration of the architecture and kernel, plus the
link-time addresses and ambient architecture state the code reads:
the two entry trampolines and the creator's secure-status register. -/
structure Config where
  userspace : Bool
  mpuVer : Nat
  arcHasSecure : Bool
  stackChecking : Bool
  privilegedStackSize : Nat
  stackGuardSize : Nat
  stackAlign : Nat
  threadEntryWrapper : Nat
  userThreadEntryWrapper : Nat
  secStat : Nat
  calleeSavedSize : Nat
deriving Repr, DecidableEq

/-- One doubling step per unit of fuel: after `fuel` steps the accumulator is
the least power of two that is `≥ n`, provided `n ≤ 2 ^ fuel`. -/
def pow2CeilLoop (n : Nat) : Nat → Nat
  | 0 => 1
  | fuel + 1 =>
    if pow2CeilLoop n fuel < n then 2 * pow2CeilLoop n fuel
    else pow2CeilLoop n fuel

/-- Modelled from the spec: the power-of-two ceiling (`POW2_CEIL`), a kernel
macro not present under `src/`; it operates on 32-bit sizes. -/
def pow2Ceil (n : Nat) : Nat := pow2CeilLoop n 32

/-- Round `n` up to a multiple of `a` (the kernel macro `ROUND_UP`, modelled
from the spec: fixed-alignment ceiling; not present under `src/`). -/
def roundUp (n a : Nat) : Nat := (n + a - 1) / a * a

/-- Round `n` down to a multiple of `a` (the macro `STACK_ROUND_DOWN`,
modelled from the spec: round the top of the usable region down to the
architecture's stack alignment; not present under `src/`). -/
def roundDown (n a : Nat) : Nat := n / a * a

/-- Modelled from the spec: `STACK_SIZE_ALIGN`, pre-alignment of the requested
size to the stack alignment before the power-of-two ceiling (macro not present
under `src/`). -/
def stackSizeAlign (cfg : Config) (n : Nat) : Nat := roundUp n cfg.stackAlign

/-- The initial stack frame `struct init_stack_frame`: pc, optional secure
status, status32 and the four argument slots r3..r0.  `sec_stat` is only
written on a secure-capable build (`Config.arcHasSecure`) and is 0 otherwise. -/
structure init_stack_frame where
  pc : Nat
  sec_stat : Nat
  status32 : Nat
  r3 : Nat
  r2 : Nat
  r1 : Nat
  r0 : Nat
deriving Repr, DecidableEq

/-- `sizeof(struct init_stack_frame)`: seven `u32_t` fields on a secure-capable
build, six otherwise. -/
def frameSizeBytes (cfg : Config) : Nat := if cfg.arcHasSecure then 7 * 4 else 6 * 4

/-- Lines 76-82: under `CONFIG_USERSPACE` the requested size is rounded, with
the policy selected by `CONFIG_ARC_MPU_VER`: power-of-two ceiling for MPU
version 2, fixed-alignment ceiling for version 3. -/
def roundedStackSize (cfg : Config) (stackSize : Nat) : Nat :=
  if cfg.userspace then
    if cfg.mpuVer = 2 then pow2Ceil (stackSizeAlign cfg stackSize)
    else if cfg.mpuVer = 3 then roundUp stackSize cfg.stackAlign
    else stackSize
  else stackSize

/-- Lines 85-100 (`pStackMem`): for a kernel thread on a userspace build the
buffer base is advanced past the stack guard. -/
def pStackMemOf (cfg : Config) (stackMem opts : Nat) : Nat :=
  if cfg.userspace then
    if opts &&& K_USER = 0 then stackMem + cfg.stackGuardSize else stackMem
  else stackMem

/-- Lines 85-100 (`stackSize`): for a kernel thread on a userspace build the
privilege stack is merged into the thread stack. -/
def stackSizeOf (cfg : Config) (stackSize opts : Nat) : Nat :=
  if cfg.userspace then
    if opts &&& K_USER = 0 then roundedStackSize cfg stackSize + cfg.privilegedStackSize
    else roundedStackSize cfg stackSize
  else roundedStackSize cfg stackSize

/-- Lines 83 and 99 (`stackEnd`): buffer base plus rounded size, extended by
the merged privilege stack and guard for a kernel thread on a userspace
build. -/
def stackEndOf (cfg : Config) (stackMem stackSize opts : Nat) : Nat :=
  if cfg.userspace then
    if opts &&& K_USER = 0 then
      stackMem + roundedStackSize cfg stackSize + cfg.privilegedStackSize +
        cfg.stackGuardSize
    else stackMem + roundedStackSize cfg stackSize
  else stackMem + roundedStackSize cfg stackSize

/-- Lines 104-106: the frame is carved at the stack-aligned top of the usable
region, minus the frame size. -/
def pInitCtxOf (cfg : Config) (stackMem stackSize opts : Nat) : Nat :=
  roundDown (stackEndOf cfg stackMem stackSize opts) cfg.stackAlign -
    frameSizeBytes cfg

/-- Lines 107-115: the entry trampoline selected by the requested privilege. -/
def pcOf (cfg : Config) (opts : Nat) : Nat :=
  if cfg.userspace then
    if opts &&& K_USER ≠ 0 then u32 cfg.userThreadEntryWrapper
    else u32 cfg.threadEntryWrapper
  else u32 cfg.threadEntryWrapper

/-- Lines 132-148: the initial `status32` word: optional stack-checking bit,
the default interrupt-priority field, and on userspace builds the US bit,
set for every thread. -/
def status32Of (cfg : Config) : Nat :=
  let base :=
    if cfg.stackChecking then
      ARC_V2_STATUS32_SC ||| ARC_V2_STATUS32_E ARC_V2_DEF_IRQ_LEVEL
    else ARC_V2_STATUS32_E ARC_V2_DEF_IRQ_LEVEL
  if cfg.userspace then base ||| ARC_V2_STATUS32_US else base

/-- The fields of `struct k_thread` written by `_new_thread` (and, for
`stack_info`, by `_new_thread_init`, modelled from the spec: it records the
base address and usable size of the region the thread may execute on). -/
structure ThreadResult where
  stack_info_start : Nat
  stack_info_size : Nat
  user_options : Nat
  priority : Int
  priv_stack_start : Nat
  priv_stack_size : Nat
  pInitCtx : Nat
  frame : init_stack_frame
  callee_saved_sp : Nat
  stack_base : Nat
  intlock_key : Nat
  relinquish_cause : Nat
deriving Repr, DecidableEq

/-- `_new_thread` (lines 65-183) as a pure function of the configuration, the
buffer base (`K_THREAD_STACK_BUFFER` is modelled from the spec as the identity
on the allocation base), the requested size, the entry point, the three
parameters, the priority and the options. -/
def new_thread (cfg : Config) (stackMem stackSize pEntry p1 p2 p3 : Nat)
    (priority : Int) (opts : Nat) : ThreadResult :=
  let stackEnd := stackEndOf cfg stackMem stackSize opts
  let pInitCtx := pInitCtxOf cfg stackMem stackSize opts
  { stack_info_start := u32 (pStackMemOf cfg stackMem opts)
    stack_info_size := u32 (stackSizeOf cfg stackSize opts)
    user_options := opts
    priority := priority
    priv_stack_start :=
      if cfg.userspace then
        if opts &&& K_USER ≠ 0 then u32 (stackEnd + cfg.stackGuardSize) else 0
      else 0
    priv_stack_size :=
      if cfg.userspace then
        if opts &&& K_USER ≠ 0 then u32 cfg.privilegedStackSize else 0
      else 0
    pInitCtx := pInitCtx
    frame :=
      { pc := pcOf cfg opts
        sec_stat := if cfg.arcHasSecure then cfg.secStat else 0
        status32 := status32Of cfg
        r3 := u32 p3
        r2 := u32 p2
        r1 := u32 p1
        r0 := u32 pEntry }
    callee_saved_sp := sub32 pInitCtx cfg.calleeSavedSize
    stack_base := if cfg.stackChecking then u32 stackEnd else 0
    intlock_key := 0x3F
    relinquish_cause := CAUSE_COOP }

/-- The fields of `_current` read and written by `_arch_user_mode_enter`. -/
structure CurrentThread where
  stack_obj : Nat
  user_options : Nat
  stack_info_start : Nat
  stack_info_size : Nat
  priv_stack_start : Nat
  priv_stack_size : Nat
deriving Repr, DecidableEq

/-- The view of a thread just created by `_new_thread` on stack object
`stackObj` as the `_current` thread of `_arch_user_mode_enter`. -/
def toCurrent (stackObj : Nat) (r : ThreadResult) : CurrentThread :=
  { stack_obj := stackObj
    user_options := r.user_options
    stack_info_start := r.stack_info_start
    stack_info_size := r.stack_info_size
    priv_stack_start := r.priv_stack_start
    priv_stack_size := r.priv_stack_size }

/-- `_arch_user_mode_enter` (lines 188-220), restricted to its state
mutation: set `K_USER`, rebase `stack_info` to the stack object, shrink its
size by the privileged-stack allowance, and designate the high end (past the
guard) as the privileged stack.  The MPU call and the final transfer of
control to user mode do not mutate the thread state. -/
def arch_user_mode_enter (cfg : Config) (t : CurrentThread) : CurrentThread :=
  let user_options := t.user_options ||| K_USER
  let start := u32 t.stack_obj
  let size := sub32 t.stack_info_size cfg.privilegedStackSize
  { t with
    user_options := user_options
    stack_info_start := start
    stack_info_size := size
    priv_stack_start := u32 (start + size + cfg.stackGuardSize)
    priv_stack_size := u32 cfg.privilegedStackSize }

/-- A concrete userspace-capable configuration (MPU version 2, power-of-two
rounding, 256-byte privileged stack, 32-byte guard, 4-byte stack alignment)
used by the concrete instances below. -/
def cfgU : Config :=
  { userspace := true, mpuVer := 2, arcHasSecure := false, stackChecking := false,
    privilegedStackSize := 256, stackGuardSize := 32, stackAlign := 4,
    threadEntryWrapper := 0x1000, userThreadEntryWrapper := 0x2000,
    secStat := 0, calleeSavedSize := 104 }

/-- The same configuration without `CONFIG_USERSPACE`. -/
def cfgK : Config := { cfgU with userspace := false }

/-- A demonstration thread: the kernel thread created on a userspace-capable
build in the concrete instances below, viewed as `_current`. -/
def t0demo : CurrentThread :=
  toCurrent 4096 (new_thread cfgU 4096 1024 10 11 12 13 0 0)

/-- Stripping the `u32_t` store of a value already below `2^32`. -/
theorem u32_eq {n : Nat} (h : n < U32) : u32 n = n := Nat.mod_eq_of_lt h

/-- `u32_t` subtraction agrees with `Nat` subtraction when no wrap occurs. -/
theorem sub32_eq {a b : Nat} (hb : b ≤ a) (ha : a < U32) : sub32 a b = a - b := by
  unfold sub32
  rw [Nat.mod_eq_of_lt ha, Nat.mod_eq_of_lt (lt_of_le_of_lt hb ha)]
  have h1 : a + U32 - b = U32 + (a - b) := by omega
  rw [h1, Nat.add_mod_left, Nat.mod_eq_of_lt (by omega)]

/-- The rounding accumulator is always a power of two. -/
theorem pow2CeilLoop_isPow (n : Nat) : ∀ fuel, ∃ k, pow2CeilLoop n fuel = 2 ^ k
  | 0 => ⟨0, rfl⟩
  | fuel + 1 => by
    obtain ⟨k, hk⟩ := pow2CeilLoop_isPow n fuel
    unfold pow2CeilLoop
    by_cases h : pow2CeilLoop n fuel < n
    · exact ⟨k + 1, by rw [if_pos h, hk, Nat.pow_succ, Nat.mul_comm]⟩
    · exact ⟨k, by rw [if_neg h, hk]⟩

/-- With enough fuel the accumulator reaches the requested size. -/
theorem pow2CeilLoop_ge (n : Nat) : ∀ fuel, min n (2 ^ fuel) ≤ pow2CeilLoop n fuel
  | 0 => Nat.min_le_right n (2 ^ 0)
  | fuel + 1 => by
    have ih := pow2CeilLoop_ge n fuel
    unfold pow2CeilLoop
    by_cases h : pow2CeilLoop n fuel < n
    · rw [if_pos h]
      have h2 : 2 ^ fuel ≤ pow2CeilLoop n fuel := by
        rcases Nat.le_total n (2 ^ fuel) with hle | hle
        · rw [Nat.min_eq_left hle] at ih; omega
        · rw [Nat.min_eq_right hle] at ih; exact ih
      have h3 : 2 ^ (fuel + 1) ≤ 2 * pow2CeilLoop n fuel := by
        rw [Nat.pow_succ]; omega
      exact le_trans (Nat.min_le_right _ _) h3
    · rw [if_neg h]
      exact le_trans (Nat.min_le_left _ _) (Nat.le_of_not_lt h)

/-- `pow2Ceil` yields a power of two. -/
theorem pow2Ceil_isPow (n : Nat) : ∃ k, pow2Ceil n = 2 ^ k := pow2CeilLoop_isPow n 32

/-- `pow2Ceil` is an upper bound for 32-bit sizes. -/
theorem le_pow2Ceil {n : Nat} (h : n ≤ 2 ^ 32) : n ≤ pow2Ceil n := by
  have hm := pow2CeilLoop_ge n 32
  rw [Nat.min_eq_left h] at hm
  exact hm

/-- `roundUp` produces a multiple of the alignment. -/
theorem dvd_roundUp (n a : Nat) : a ∣ roundUp n a := dvd_mul_left a _

/-- `roundUp` does not shrink its argument. -/
theorem le_roundUp {a : Nat} (ha : 0 < a) (n : Nat) : n ≤ roundUp n a := by
  unfold roundUp
  rcases n with _ | m
  · exact Nat.zero_le _
  · have h1 : m + 1 + a - 1 = m + a := by omega
    rw [h1, Nat.add_div_right m ha, Nat.succ_mul, Nat.mul_comm (m / a) a]
    have h2 := Nat.mod_add_div m a
    have h3 := Nat.mod_lt m ha
    set t := a * (m / a) with ht
    omega

/-- `roundUp` overshoots by less than one alignment unit. -/
theorem roundUp_lt {a : Nat} (ha : 0 < a) (n : Nat) : roundUp n a < n + a := by
  unfold roundUp
  rcases n with _ | m
  · have h0 : (0 + a - 1) / a = 0 := Nat.div_eq_of_lt (by omega)
    rw [h0, Nat.zero_mul]
    omega
  · have h1 : m + 1 + a - 1 = m + a := by omega
    rw [h1, Nat.add_div_right m ha, Nat.succ_mul, Nat.mul_comm (m / a) a]
    have h2 := Nat.mod_add_div m a
    set t := a * (m / a) with ht
    omega

/-- `roundDown` produces a multiple of the alignment. -/
theorem dvd_roundDown (n a : Nat) : a ∣ roundDown n a := dvd_mul_left a _

/-- `roundDown` does not grow its argument. -/
theorem roundDown_le (n a : Nat) : roundDown n a ≤ n := Nat.div_mul_le_self n a

/-- Shifting by an aligned base commutes with `roundDown`. -/
theorem roundDown_add_dvd {a b : Nat} (ha : 0 < a) (hb : a ∣ b) (k : Nat) :
    roundDown (b + k) a = b + roundDown k a := by
  obtain ⟨m, rfl⟩ := hb
  unfold roundDown
  rw [Nat.mul_add_div ha, Nat.add_mul, Nat.mul_comm a m]

/-- Setting the `K_USER` bit by `|=` leaves it set. -/
theorem lor_and_K_USER (x : Nat) : (x ||| K_USER) &&& K_USER = K_USER := by
  have h4 : K_USER = 2 ^ 2 := rfl
  rw [h4, Nat.and_two_pow]
  have hb : (x ||| 2 ^ 2).testBit 2 = true := by
    rw [Nat.testBit_or]
    have h2 : Nat.testBit (2 ^ 2) 2 = true := by decide
    rw [h2, Bool.or_true]
  rw [hb]
  rfl

/-- On a userspace-capable build, `_new_thread` for a user thread (`K_USER`
set) reduced to its written fields: `stack_info` is the full rounded buffer
and the privileged stack sits past the buffer end and the guard. -/
theorem new_thread_user (cfg : Config)
    (stackMem stackSize pEntry p1 p2 p3 : Nat) (priority : Int) (opts : Nat)
    (hus : cfg.userspace = true) (hk : opts &&& K_USER ≠ 0) :
    new_thread cfg stackMem stackSize pEntry p1 p2 p3 priority opts =
      { stack_info_start := u32 stackMem
        stack_info_size := u32 (roundedStackSize cfg stackSize)
        user_options := opts
        priority := priority
        priv_stack_start :=
          u32 (stackMem + roundedStackSize cfg stackSize + cfg.stackGuardSize)
        priv_stack_size := u32 cfg.privilegedStackSize
        pInitCtx := roundDown (stackMem + roundedStackSize cfg stackSize)
          cfg.stackAlign - frameSizeBytes cfg
        frame :=
          { pc := u32 cfg.userThreadEntryWrapper
            sec_stat := if cfg.arcHasSecure then cfg.secStat else 0
            status32 := status32Of cfg
            r3 := u32 p3
            r2 := u32 p2
            r1 := u32 p1
            r0 := u32 pEntry }
        callee_saved_sp := sub32 (roundDown (stackMem + roundedStackSize cfg stackSize)
          cfg.stackAlign - frameSizeBytes cfg) cfg.calleeSavedSize
        stack_base := if cfg.stackChecking then
          u32 (stackMem + roundedStackSize cfg stackSize) else 0
        intlock_key := 0x3F
        relinquish_cause := CAUSE_COOP } := by
  unfold new_thread pStackMemOf stackSizeOf pInitCtxOf pcOf
  simp [stackEndOf, hus, hk]

/-- On a userspace-capable build, `_new_thread` for a kernel thread (`K_USER`
clear) reduced to its written fields: the guard and the privileged-stack
allowance are merged into the thread stack. -/
theorem new_thread_kernel_us (cfg : Config)
    (stackMem stackSize pEntry p1 p2 p3 : Nat) (priority : Int) (opts : Nat)
    (hus : cfg.userspace = true) (hk0 : opts &&& K_USER = 0) :
    new_thread cfg stackMem stackSize pEntry p1 p2 p3 priority opts =
      { stack_info_start := u32 (stackMem + cfg.stackGuardSize)
        stack_info_size :=
          u32 (roundedStackSize cfg stackSize + cfg.privilegedStackSize)
        user_options := opts
        priority := priority
        priv_stack_start := 0
        priv_stack_size := 0
        pInitCtx := roundDown (stackMem + roundedStackSize cfg stackSize +
          cfg.privilegedStackSize + cfg.stackGuardSize) cfg.stackAlign -
          frameSizeBytes cfg
        frame :=
          { pc := u32 cfg.threadEntryWrapper
            sec_stat := if cfg.arcHasSecure then cfg.secStat else 0
            status32 := status32Of cfg
            r3 := u32 p3
            r2 := u32 p2
            r1 := u32 p1
            r0 := u32 pEntry }
        callee_saved_sp := sub32 (roundDown (stackMem + roundedStackSize cfg stackSize +
          cfg.privilegedStackSize + cfg.stackGuardSize) cfg.stackAlign -
          frameSizeBytes cfg) cfg.calleeSavedSize
        stack_base := if cfg.stackChecking then
          u32 (stackMem + roundedStackSize cfg stackSize +
            cfg.privilegedStackSize + cfg.stackGuardSize) else 0
        intlock_key := 0x3F
        relinquish_cause := CAUSE_COOP } := by
  unfold new_thread pStackMemOf stackSizeOf pInitCtxOf pcOf
  simp [stackEndOf, hus, hk0]

/-- The end of the stack region is the buffer base plus a base-independent
extent. -/
theorem stackEndOf_shift (cfg : Config) (stackMem stackSize opts : Nat) :
    stackEndOf cfg stackMem stackSize opts =
      stackMem + stackEndOf cfg 0 stackSize opts := by
  unfold stackEndOf
  split_ifs <;> omega

/-- On an aligned buffer the frame address is the base plus a base-independent
offset. -/
theorem pInitCtxOf_shift (cfg : Config) (stackMem stackSize opts : Nat)
    (ha : 0 < cfg.stackAlign) (hd : cfg.stackAlign ∣ stackMem) :
    pInitCtxOf cfg stackMem stackSize opts =
      stackMem + roundDown (stackEndOf cfg 0 stackSize opts) cfg.stackAlign -
        frameSizeBytes cfg := by
  unfold pInitCtxOf
  rw [stackEndOf_shift, roundDown_add_dvd ha hd]

/-- Claim C1: for every call to `_new_thread` with entry point `pEntry` and
parameters `p1, p2, p3` (all 32-bit values), the four argument slots of the
initial register frame hold exactly `(pEntry, p1, p2, p3)` in the fixed order
`r0 = pEntry`, `r1 = p1`, `r2 = p2`, `r3 = p3`. -/
theorem C1_new_thread_arg_slots (cfg : Config)
    (stackMem stackSize pEntry p1 p2 p3 : Nat) (priority : Int) (opts : Nat)
    (hE : pEntry < U32) (h1 : p1 < U32) (h2 : p2 < U32) (h3 : p3 < U32) :
    (new_thread cfg stackMem stackSize pEntry p1 p2 p3 priority opts).frame.r0 = pEntry ∧
    (new_thread cfg stackMem stackSize pEntry p1 p2 p3 priority opts).frame.r1 = p1 ∧
    (new_thread cfg stackMem stackSize pEntry p1 p2 p3 priority opts).frame.r2 = p2 ∧
    (new_thread cfg stackMem stackSize pEntry p1 p2 p3 priority opts).frame.r3 = p3 :=
  ⟨u32_eq hE, u32_eq h1, u32_eq h2, u32_eq h3⟩

/-- Claim C1, witness: the frame of a concrete creation holds exactly
`(10, 11, 12, 13)` in the slots `r0..r3`. -/
theorem C1_witness :
    (new_thread cfgK 4096 512 10 11 12 13 0 0).frame.r0 = 10 ∧
    (new_thread cfgK 4096 512 10 11 12 13 0 0).frame.r1 = 11 ∧
    (new_thread cfgK 4096 512 10 11 12 13 0 0).frame.r2 = 12 ∧
    (new_thread cfgK 4096 512 10 11 12 13 0 0).frame.r3 = 13 :=
  C1_new_thread_arg_slots cfgK 4096 512 10 11 12 13 0 0
    (by decide) (by decide) (by decide) (by decide)

/-- Claim C2, counterexample: with `buffer_size = 1024`, user mode requested,
privileged-stack allowance 256, guard 32 and power-of-two rounding (MPU
version 2), the code rounds the total to 1024 — not 2048 — and records the
full 1024 bytes — not `2048 − 256 − 32 = 1760` — as the user region
(`stack_info.size`); the 32-byte guard and the 256-byte privileged region lie
above the rounded buffer's end (privileged stack at `4096 + 1024 + 32`), not
inside it. -/
theorem C2_counterexample :
    roundedStackSize cfgU 1024 = 1024 ∧
    ¬roundedStackSize cfgU 1024 = 2048 ∧
    (new_thread cfgU 4096 1024 10 11 12 13 0 K_USER).stack_info_size = 1024 ∧
    ¬(new_thread cfgU 4096 1024 10 11 12 13 0 K_USER).stack_info_size = 1760 ∧
    (new_thread cfgU 4096 1024 10 11 12 13 0 K_USER).priv_stack_start = 5152 ∧
    (new_thread cfgU 4096 1024 10 11 12 13 0 K_USER).priv_stack_size = 256 := by
  decide

/-- Claim C2 as amended: for every user thread the planner records the full
rounded buffer as the user region (`stack_info = (base, rounded size)`); the
privileged-stack allowance and the guard are not carved out of it but placed
above the rounded buffer's end — privileged stack at
`base + rounded + guard`, of the configured size — so they are disjoint from
the user region, and their union with the user region and the guard is
exactly the enclosing allocation of `rounded + guard + allowance` bytes. -/
theorem C2_user_regions (cfg : Config)
    (stackMem stackSize pEntry p1 p2 p3 : Nat) (priority : Int) (opts : Nat)
    (hus : cfg.userspace = true) (hk : opts &&& K_USER ≠ 0)
    (hlt : stackMem + roundedStackSize cfg stackSize + cfg.stackGuardSize +
      cfg.privilegedStackSize < U32) :
    (new_thread cfg stackMem stackSize pEntry p1 p2 p3 priority opts).stack_info_start =
      stackMem ∧
    (new_thread cfg stackMem stackSize pEntry p1 p2 p3 priority opts).stack_info_size =
      roundedStackSize cfg stackSize ∧
    (new_thread cfg stackMem stackSize pEntry p1 p2 p3 priority opts).priv_stack_start =
      stackMem + roundedStackSize cfg stackSize + cfg.stackGuardSize ∧
    (new_thread cfg stackMem stackSize pEntry p1 p2 p3 priority opts).priv_stack_size =
      cfg.privilegedStackSize ∧
    (new_thread cfg stackMem stackSize pEntry p1 p2 p3 priority opts).stack_info_start +
        (new_thread cfg stackMem stackSize pEntry p1 p2 p3 priority opts).stack_info_size ≤
      (new_thread cfg stackMem stackSize pEntry p1 p2 p3 priority opts).priv_stack_start ∧
    (new_thread cfg stackMem stackSize pEntry p1 p2 p3 priority opts).priv_stack_start +
        (new_thread cfg stackMem stackSize pEntry p1 p2 p3 priority opts).priv_stack_size =
      stackMem + (roundedStackSize cfg stackSize + cfg.stackGuardSize +
        cfg.privilegedStackSize) := by
  rw [new_thread_user cfg stackMem stackSize pEntry p1 p2 p3 priority opts hus hk]
  have e1 : u32 stackMem = stackMem := u32_eq (by omega)
  have e2 : u32 (roundedStackSize cfg stackSize) = roundedStackSize cfg stackSize :=
    u32_eq (by omega)
  have e3 : u32 (stackMem + roundedStackSize cfg stackSize + cfg.stackGuardSize) =
      stackMem + roundedStackSize cfg stackSize + cfg.stackGuardSize :=
    u32_eq (by omega)
  have e4 : u32 cfg.privilegedStackSize = cfg.privilegedStackSize := u32_eq (by omega)
  refine ⟨e1, e2, e3, e4, ?_, ?_⟩
  · show u32 stackMem + u32 (roundedStackSize cfg stackSize) ≤
      u32 (stackMem + roundedStackSize cfg stackSize + cfg.stackGuardSize)
    rw [e1, e2, e3]
    omega
  · show u32 (stackMem + roundedStackSize cfg stackSize + cfg.stackGuardSize) +
      u32 cfg.privilegedStackSize = _
    rw [e3, e4]
    omega

/-- Claim C2 as amended, witness: the concrete Scenario-B creation
instantiated at `cfgU` with `buffer_size = 1024`. -/
theorem C2_witness :
    (new_thread cfgU 4096 1024 10 11 12 13 0 K_USER).stack_info_start = 4096 ∧
    (new_thread cfgU 4096 1024 10 11 12 13 0 K_USER).stack_info_size =
      roundedStackSize cfgU 1024 ∧
    (new_thread cfgU 4096 1024 10 11 12 13 0 K_USER).priv_stack_start =
      4096 + roundedStackSize cfgU 1024 + cfgU.stackGuardSize ∧
    (new_thread cfgU 4096 1024 10 11 12 13 0 K_USER).priv_stack_size =
      cfgU.privilegedStackSize ∧
    (new_thread cfgU 4096 1024 10 11 12 13 0 K_USER).stack_info_start +
        (new_thread cfgU 4096 1024 10 11 12 13 0 K_USER).stack_info_size ≤
      (new_thread cfgU 4096 1024 10 11 12 13 0 K_USER).priv_stack_start ∧
    (new_thread cfgU 4096 1024 10 11 12 13 0 K_USER).priv_stack_start +
        (new_thread cfgU 4096 1024 10 11 12 13 0 K_USER).priv_stack_size =
      4096 + (roundedStackSize cfgU 1024 + cfgU.stackGuardSize +
        cfgU.privilegedStackSize) :=
  C2_user_regions cfgU 4096 1024 10 11 12 13 0 K_USER rfl (by decide) (by decide)

/-- Claim C3, counterexample: `_new_thread` given a stack of 8 bytes — far
below the minimum viable size, since the register frame alone needs 24 —
reports no error: it completes the build, fully populates the frame
(`r0 = 10`), and places the frame at address 4080, below the buffer base
4096 (an out-of-bounds write instead of a checked failure). -/
theorem C3_counterexample :
    (new_thread cfgK 4096 8 10 11 12 13 0 0).pInitCtx = 4080 ∧
    (new_thread cfgK 4096 8 10 11 12 13 0 0).pInitCtx < 4096 ∧
    (new_thread cfgK 4096 8 10 11 12 13 0 0).frame.r0 = 10 := by
  decide

/-- Claim C3 as amended: `_new_thread` performs no stack-size check and
returns no error (it returns `void`): whenever the requested size is smaller
than the register frame, it still proceeds, fully populates the frame, and
the frame address falls below the buffer base — a too-small stack is a
caller-contract precondition like every other bad input, not a detected
runtime error. -/
theorem C3_no_size_check (cfg : Config)
    (stackMem stackSize pEntry p1 p2 p3 : Nat) (priority : Int) (opts : Nat)
    (hus : cfg.userspace = false) (ha : 0 < cfg.stackAlign)
    (hb : cfg.stackAlign ∣ stackMem) (h0 : 0 < stackMem)
    (hsmall : stackSize < frameSizeBytes cfg) :
    (new_thread cfg stackMem stackSize pEntry p1 p2 p3 priority opts).pInitCtx <
      stackMem ∧
    (new_thread cfg stackMem stackSize pEntry p1 p2 p3 priority opts).frame.r0 =
      u32 pEntry := by
  refine ⟨?_, rfl⟩
  show pInitCtxOf cfg stackMem stackSize opts < stackMem
  unfold pInitCtxOf stackEndOf roundedStackSize
  simp only [hus, Bool.false_eq_true, if_false, ite_false]
  rw [roundDown_add_dvd ha hb]
  have h1 : roundDown stackSize cfg.stackAlign ≤ stackSize := roundDown_le _ _
  omega

/-- Claim C3 as amended, witness: the 8-byte creation at concrete inputs. -/
theorem C3_witness :
    (new_thread cfgK 4096 8 10 11 12 13 0 0).pInitCtx < 4096 ∧
    (new_thread cfgK 4096 8 10 11 12 13 0 0).frame.r0 = u32 10 :=
  C3_no_size_check cfgK 4096 8 10 11 12 13 0 0 rfl (by decide) (by decide)
    (by decide) (by decide)

/-- Claim C4, counterexample: after one `_arch_user_mode_enter` the thread's
privilege is User (`K_USER` set), yet a second call on the same thread is
neither rejected nor fatal: it performs the re-partition again, producing a
different state whose recorded stack size has shrunk by another allowance
(1024 → 768). -/
theorem C4_counterexample :
    (arch_user_mode_enter cfgU
        (toCurrent 4096 (new_thread cfgU 4096 1024 10 11 12 13 0 0))).user_options &&&
      K_USER ≠ 0 ∧
    arch_user_mode_enter cfgU
        (arch_user_mode_enter cfgU
          (toCurrent 4096 (new_thread cfgU 4096 1024 10 11 12 13 0 0))) ≠
      arch_user_mode_enter cfgU
        (toCurrent 4096 (new_thread cfgU 4096 1024 10 11 12 13 0 0)) ∧
    (arch_user_mode_enter cfgU
        (arch_user_mode_enter cfgU
          (toCurrent 4096 (new_thread cfgU 4096 1024 10 11 12 13 0 0)))).stack_info_size =
      768 := by
  decide

/-- Claim C4 as amended: `_arch_user_mode_enter` unconditionally marks the
calling thread User (`K_USER` set afterwards, and still set after any further
call — no operation in this module clears it) and gives it a privileged stack
of the configured non-zero allowance; but the code contains no check of the
current privilege state: a second call is not rejected — it re-partitions
again, shrinking the recorded stack size by a second allowance.  The
single-transition discipline rests on the call transferring control to user
mode and never returning, not on a runtime check. -/
theorem C4_transition (cfg : Config) (t : CurrentThread)
    (hp : 0 < cfg.privilegedStackSize) (hpU : cfg.privilegedStackSize < U32)
    (hsz : 2 * cfg.privilegedStackSize ≤ t.stack_info_size)
    (hszU : t.stack_info_size < U32) :
    (arch_user_mode_enter cfg t).user_options &&& K_USER = K_USER ∧
    (arch_user_mode_enter cfg t).priv_stack_size = cfg.privilegedStackSize ∧
    (arch_user_mode_enter cfg t).priv_stack_size ≠ 0 ∧
    (arch_user_mode_enter cfg
        (arch_user_mode_enter cfg t)).user_options &&& K_USER = K_USER ∧
    (arch_user_mode_enter cfg (arch_user_mode_enter cfg t)).stack_info_size =
      t.stack_info_size - 2 * cfg.privilegedStackSize := by
  have hs1 : sub32 t.stack_info_size cfg.privilegedStackSize =
      t.stack_info_size - cfg.privilegedStackSize := sub32_eq (by omega) hszU
  refine ⟨?_, u32_eq hpU, ?_, ?_, ?_⟩
  · exact lor_and_K_USER _
  · rw [show (arch_user_mode_enter cfg t).priv_stack_size =
      u32 cfg.privilegedStackSize from rfl, u32_eq hpU]
    omega
  · show (t.user_options ||| K_USER ||| K_USER) &&& K_USER = K_USER
    exact lor_and_K_USER _
  · show sub32 (sub32 t.stack_info_size cfg.privilegedStackSize)
        cfg.privilegedStackSize = _
    rw [hs1, sub32_eq (by omega) (by omega)]
    omega

/-- Claim C4 as amended, witness: the demonstration thread transitioned
twice. -/
theorem C4_witness :
    (arch_user_mode_enter cfgU t0demo).user_options &&& K_USER = K_USER ∧
    (arch_user_mode_enter cfgU t0demo).priv_stack_size = cfgU.privilegedStackSize ∧
    (arch_user_mode_enter cfgU t0demo).priv_stack_size ≠ 0 ∧
    (arch_user_mode_enter cfgU
        (arch_user_mode_enter cfgU t0demo)).user_options &&& K_USER = K_USER ∧
    (arch_user_mode_enter cfgU (arch_user_mode_enter cfgU t0demo)).stack_info_size =
      t0demo.stack_info_size - 2 * cfgU.privilegedStackSize :=
  C4_transition cfgU t0demo (by decide) (by decide) (by decide) (by decide)

/-- Claim C5: `_arch_user_mode_enter` re-partitions the calling thread's
existing allocation in place: the working-stack size recorded in `stack_info`
shrinks by exactly the fixed privileged-stack allowance; the privileged stack
it designates is exactly the vacated high end of the old working region (its
end coincides with the old region's end) and stays inside the original
allocation of `rounded + guard + allowance` bytes — no new memory. -/
theorem C5_repartition (cfg : Config)
    (stackMem stackSize pEntry p1 p2 p3 : Nat) (priority : Int) (opts : Nat)
    (hus : cfg.userspace = true) (hk0 : opts &&& K_USER = 0)
    (hlt : stackMem + roundedStackSize cfg stackSize + cfg.stackGuardSize +
      cfg.privilegedStackSize < U32) :
    (arch_user_mode_enter cfg (toCurrent stackMem
        (new_thread cfg stackMem stackSize pEntry p1 p2 p3 priority opts))).stack_info_size =
      (toCurrent stackMem
        (new_thread cfg stackMem stackSize pEntry p1 p2 p3 priority opts)).stack_info_size -
        cfg.privilegedStackSize ∧
    (arch_user_mode_enter cfg (toCurrent stackMem
        (new_thread cfg stackMem stackSize pEntry p1 p2 p3 priority opts))).priv_stack_size =
      cfg.privilegedStackSize ∧
    (arch_user_mode_enter cfg (toCurrent stackMem
        (new_thread cfg stackMem stackSize pEntry p1 p2 p3 priority opts))).priv_stack_start +
        (arch_user_mode_enter cfg (toCurrent stackMem
          (new_thread cfg stackMem stackSize pEntry p1 p2 p3 priority opts))).priv_stack_size =
      (toCurrent stackMem
          (new_thread cfg stackMem stackSize pEntry p1 p2 p3 priority opts)).stack_info_start +
        (toCurrent stackMem
          (new_thread cfg stackMem stackSize pEntry p1 p2 p3 priority opts)).stack_info_size ∧
    stackMem ≤ (arch_user_mode_enter cfg (toCurrent stackMem
        (new_thread cfg stackMem stackSize pEntry p1 p2 p3 priority opts))).priv_stack_start ∧
    (arch_user_mode_enter cfg (toCurrent stackMem
        (new_thread cfg stackMem stackSize pEntry p1 p2 p3 priority opts))).priv_stack_start +
        (arch_user_mode_enter cfg (toCurrent stackMem
          (new_thread cfg stackMem stackSize pEntry p1 p2 p3 priority opts))).priv_stack_size =
      stackMem + (roundedStackSize cfg stackSize + cfg.stackGuardSize +
        cfg.privilegedStackSize) := by
  rw [new_thread_kernel_us cfg stackMem stackSize pEntry p1 p2 p3 priority opts hus hk0]
  have e1 : u32 (stackMem + cfg.stackGuardSize) = stackMem + cfg.stackGuardSize :=
    u32_eq (by omega)
  have e2 : u32 (roundedStackSize cfg stackSize + cfg.privilegedStackSize) =
      roundedStackSize cfg stackSize + cfg.privilegedStackSize := u32_eq (by omega)
  have e3 : u32 stackMem = stackMem := u32_eq (by omega)
  have e4 : u32 cfg.privilegedStackSize = cfg.privilegedStackSize := u32_eq (by omega)
  have e5 : sub32 (u32 (roundedStackSize cfg stackSize + cfg.privilegedStackSize))
      cfg.privilegedStackSize = roundedStackSize cfg stackSize := by
    rw [e2, sub32_eq (by omega) (by omega)]
    omega
  have e6 : u32 (u32 stackMem +
      sub32 (u32 (roundedStackSize cfg stackSize + cfg.privilegedStackSize))
        cfg.privilegedStackSize + cfg.stackGuardSize) =
      stackMem + roundedStackSize cfg stackSize + cfg.stackGuardSize := by
    rw [e3, e5]
    exact u32_eq (by omega)
  refine ⟨?_, e4, ?_, ?_, ?_⟩
  · show sub32 (u32 (roundedStackSize cfg stackSize + cfg.privilegedStackSize))
        cfg.privilegedStackSize =
      u32 (roundedStackSize cfg stackSize + cfg.privilegedStackSize) -
        cfg.privilegedStackSize
    rw [e5, e2]
    omega
  · show u32 (u32 stackMem +
        sub32 (u32 (roundedStackSize cfg stackSize + cfg.privilegedStackSize))
          cfg.privilegedStackSize + cfg.stackGuardSize) + u32 cfg.privilegedStackSize =
      u32 (stackMem + cfg.stackGuardSize) +
        u32 (roundedStackSize cfg stackSize + cfg.privilegedStackSize)
    rw [e6, e4, e1, e2]
    omega
  · show stackMem ≤ u32 (u32 stackMem +
        sub32 (u32 (roundedStackSize cfg stackSize + cfg.privilegedStackSize))
          cfg.privilegedStackSize + cfg.stackGuardSize)
    rw [e6]
    omega
  · show u32 (u32 stackMem +
        sub32 (u32 (roundedStackSize cfg stackSize + cfg.privilegedStackSize))
          cfg.privilegedStackSize + cfg.stackGuardSize) + u32 cfg.privilegedStackSize = _
    rw [e6, e4]
    omega

/-- Claim C5, witness: the demonstration kernel thread transitioned once at
concrete inputs. -/
theorem C5_witness :
    (arch_user_mode_enter cfgU (toCurrent 4096
        (new_thread cfgU 4096 1024 10 11 12 13 0 0))).stack_info_size =
      (toCurrent 4096
        (new_thread cfgU 4096 1024 10 11 12 13 0 0)).stack_info_size -
        cfgU.privilegedStackSize ∧
    (arch_user_mode_enter cfgU (toCurrent 4096
        (new_thread cfgU 4096 1024 10 11 12 13 0 0))).priv_stack_size =
      cfgU.privilegedStackSize ∧
    (arch_user_mode_enter cfgU (toCurrent 4096
        (new_thread cfgU 4096 1024 10 11 12 13 0 0))).priv_stack_start +
        (arch_user_mode_enter cfgU (toCurrent 4096
          (new_thread cfgU 4096 1024 10 11 12 13 0 0))).priv_stack_size =
      (toCurrent 4096
          (new_thread cfgU 4096 1024 10 11 12 13 0 0)).stack_info_start +
        (toCurrent 4096
          (new_thread cfgU 4096 1024 10 11 12 13 0 0)).stack_info_size ∧
    4096 ≤ (arch_user_mode_enter cfgU (toCurrent 4096
        (new_thread cfgU 4096 1024 10 11 12 13 0 0))).priv_stack_start ∧
    (arch_user_mode_enter cfgU (toCurrent 4096
        (new_thread cfgU 4096 1024 10 11 12 13 0 0))).priv_stack_start +
        (arch_user_mode_enter cfgU (toCurrent 4096
          (new_thread cfgU 4096 1024 10 11 12 13 0 0))).priv_stack_size =
      4096 + (roundedStackSize cfgU 1024 + cfgU.stackGuardSize +
        cfgU.privilegedStackSize) :=
  C5_repartition cfgU 4096 1024 10 11 12 13 0 0 rfl (by decide) (by decide)

/-- Claim C6: the entry/return address (`pc`) of the initial frame is the
trampoline matching the requested privilege: the user-mode entry wrapper
exactly when `K_USER` is set on a userspace-capable build, and the
kernel-mode entry wrapper otherwise. -/
theorem C6_entry_trampoline (cfg : Config)
    (stackMem stackSize pEntry p1 p2 p3 : Nat) (priority : Int) (opts : Nat)
    (hk : cfg.threadEntryWrapper < U32) (hu : cfg.userThreadEntryWrapper < U32) :
    (new_thread cfg stackMem stackSize pEntry p1 p2 p3 priority opts).frame.pc =
      if cfg.userspace = true ∧ opts &&& K_USER ≠ 0 then cfg.userThreadEntryWrapper
      else cfg.threadEntryWrapper := by
  show pcOf cfg opts = _
  unfold pcOf
  by_cases hus : cfg.userspace = true <;> by_cases hko : opts &&& K_USER = 0 <;>
    simp [hus, hko, u32_eq hk, u32_eq hu]

/-- Claim C6, witness: a concrete user-thread creation selects the user-mode
entry wrapper. -/
theorem C6_witness :
    (new_thread cfgU 4096 1024 10 11 12 13 0 K_USER).frame.pc =
      (if cfgU.userspace = true ∧ K_USER &&& K_USER ≠ 0 then cfgU.userThreadEntryWrapper
       else cfgU.threadEntryWrapper) :=
  C6_entry_trampoline cfgU 4096 1024 10 11 12 13 0 K_USER (by decide) (by decide)

/-- Claim C7: with MPU-backed stack protection enabled, the rounding policy is
selected by the configuration parameter `CONFIG_ARC_MPU_VER`, not inferred
from the inputs: for MPU version 2 the rounded size is a power-of-two ceiling
(a power of two, at least the request), and for MPU version 3 it is the
fixed-alignment ceiling (a multiple of the stack alignment, at least the
request, overshooting by less than one alignment unit). -/
theorem C7_rounding_policy (cfg : Config) (stackSize : Nat)
    (hus : cfg.userspace = true) (ha : 0 < cfg.stackAlign)
    (hsz : stackSize + cfg.stackAlign ≤ 2 ^ 32) :
    (cfg.mpuVer = 2 →
      (∃ k, roundedStackSize cfg stackSize = 2 ^ k) ∧
      stackSize ≤ roundedStackSize cfg stackSize) ∧
    (cfg.mpuVer = 3 →
      cfg.stackAlign ∣ roundedStackSize cfg stackSize ∧
      stackSize ≤ roundedStackSize cfg stackSize ∧
      roundedStackSize cfg stackSize < stackSize + cfg.stackAlign) := by
  constructor
  · intro h2
    have hr : roundedStackSize cfg stackSize =
        pow2Ceil (stackSizeAlign cfg stackSize) := by
      unfold roundedStackSize
      simp [hus, h2]
    rw [hr]
    refine ⟨pow2Ceil_isPow _, ?_⟩
    have hb1 : stackSize ≤ stackSizeAlign cfg stackSize := le_roundUp ha stackSize
    have hb2 : stackSizeAlign cfg stackSize ≤ 2 ^ 32 := by
      have hb3 := roundUp_lt ha stackSize
      unfold stackSizeAlign
      omega
    exact le_trans hb1 (le_pow2Ceil hb2)
  · intro h3
    have hr : roundedStackSize cfg stackSize = roundUp stackSize cfg.stackAlign := by
      unfold roundedStackSize
      have hne : ¬cfg.mpuVer = 2 := by omega
      simp [hus, hne, h3]
    rw [hr]
    exact ⟨dvd_roundUp _ _, le_roundUp ha _, roundUp_lt ha _⟩

/-- Claim C7, witness: the policy at the concrete MPU-version-2
configuration and a 1024-byte request. -/
theorem C7_witness :
    (cfgU.mpuVer = 2 →
      (∃ k, roundedStackSize cfgU 1024 = 2 ^ k) ∧
      1024 ≤ roundedStackSize cfgU 1024) ∧
    (cfgU.mpuVer = 3 →
      cfgU.stackAlign ∣ roundedStackSize cfgU 1024 ∧
      1024 ≤ roundedStackSize cfgU 1024 ∧
      roundedStackSize cfgU 1024 < 1024 + cfgU.stackAlign) :=
  C7_rounding_policy cfgU 1024 rfl (by decide) (by decide)

/-- Claim C8: the frame address equals the top of the usable region rounded
down to the stack alignment minus the fixed frame size; it is itself
stack-aligned (the alignment divides the frame size on this architecture);
and the frame's byte size is determined solely by the secure-capable
capability — 28 bytes when secure-capable, 24 otherwise — independently of
priority, options or any other flag. -/
theorem C8_frame_layout (cfg : Config)
    (stackMem stackSize pEntry p1 p2 p3 : Nat) (priority : Int) (opts : Nat)
    (hdvd : cfg.stackAlign ∣ frameSizeBytes cfg) :
    (new_thread cfg stackMem stackSize pEntry p1 p2 p3 priority opts).pInitCtx =
      roundDown (stackEndOf cfg stackMem stackSize opts) cfg.stackAlign -
        frameSizeBytes cfg ∧
    cfg.stackAlign ∣
      (new_thread cfg stackMem stackSize pEntry p1 p2 p3 priority opts).pInitCtx ∧
    frameSizeBytes cfg = (if cfg.arcHasSecure = true then 28 else 24) := by
  refine ⟨rfl, Nat.dvd_sub' (dvd_roundDown _ _) hdvd, ?_⟩
  unfold frameSizeBytes
  by_cases h : cfg.arcHasSecure = true <;> simp [h]

/-- Claim C8, witness: the frame address and size at a concrete creation. -/
theorem C8_witness :
    (new_thread cfgU 4096 1024 10 11 12 13 0 K_USER).pInitCtx =
      roundDown (stackEndOf cfgU 4096 1024 K_USER) cfgU.stackAlign -
        frameSizeBytes cfgU ∧
    cfgU.stackAlign ∣ (new_thread cfgU 4096 1024 10 11 12 13 0 K_USER).pInitCtx ∧
    frameSizeBytes cfgU = (if cfgU.arcHasSecure = true then 28 else 24) :=
  C8_frame_layout cfgU 4096 1024 10 11 12 13 0 K_USER (by decide)

/-- Claim C9: thread creation is deterministic — `_new_thread` is a pure
function, so two runs with identical inputs are identical — and two
creations with identical inputs on two distinct aligned buffers write
identical register frames, whose addresses differ by exactly the difference
of the buffer bases. -/
theorem C9_deterministic (cfg : Config)
    (base1 base2 stackSize pEntry p1 p2 p3 : Nat) (priority : Int) (opts : Nat)
    (ha : 0 < cfg.stackAlign)
    (hd1 : cfg.stackAlign ∣ base1) (hd2 : cfg.stackAlign ∣ base2)
    (hge : frameSizeBytes cfg ≤
      roundDown (stackEndOf cfg 0 stackSize opts) cfg.stackAlign) :
    new_thread cfg base1 stackSize pEntry p1 p2 p3 priority opts =
      new_thread cfg base1 stackSize pEntry p1 p2 p3 priority opts ∧
    (new_thread cfg base1 stackSize pEntry p1 p2 p3 priority opts).frame =
      (new_thread cfg base2 stackSize pEntry p1 p2 p3 priority opts).frame ∧
    (new_thread cfg base1 stackSize pEntry p1 p2 p3 priority opts).pInitCtx + base2 =
      (new_thread cfg base2 stackSize pEntry p1 p2 p3 priority opts).pInitCtx + base1 := by
  refine ⟨rfl, rfl, ?_⟩
  show pInitCtxOf cfg base1 stackSize opts + base2 =
    pInitCtxOf cfg base2 stackSize opts + base1
  rw [pInitCtxOf_shift cfg base1 stackSize opts ha hd1,
    pInitCtxOf_shift cfg base2 stackSize opts ha hd2]
  omega

/-- Claim C9, witness: two creations on buffers at 4096 and 8192 with the
same inputs. -/
theorem C9_witness :
    new_thread cfgU 4096 1024 10 11 12 13 0 K_USER =
      new_thread cfgU 4096 1024 10 11 12 13 0 K_USER ∧
    (new_thread cfgU 4096 1024 10 11 12 13 0 K_USER).frame =
      (new_thread cfgU 8192 1024 10 11 12 13 0 K_USER).frame ∧
    (new_thread cfgU 4096 1024 10 11 12 13 0 K_USER).pInitCtx + 8192 =
      (new_thread cfgU 8192 1024 10 11 12 13 0 K_USER).pInitCtx + 4096 :=
  C9_deterministic cfgU 4096 8192 1024 10 11 12 13 0 K_USER (by decide)
    (by decide) (by decide) (by decide)

/-- Claim C10: on userspace-capable builds `_new_thread` sets the US
(user-sleep) bit in the frame's `status32` for every new thread — the options
(in particular `K_USER`) are universally quantified, so kernel threads are
included — in addition to the default interrupt-priority field. -/
theorem C10_status32_us (cfg : Config)
    (stackMem stackSize pEntry p1 p2 p3 : Nat) (priority : Int) (opts : Nat)
    (hus : cfg.userspace = true) :
    (new_thread cfg stackMem stackSize pEntry p1 p2 p3 priority opts).frame.status32 &&&
        ARC_V2_STATUS32_US = ARC_V2_STATUS32_US ∧
    (new_thread cfg stackMem stackSize pEntry p1 p2 p3 priority opts).frame.status32 &&&
        ARC_V2_STATUS32_E ARC_V2_DEF_IRQ_LEVEL =
      ARC_V2_STATUS32_E ARC_V2_DEF_IRQ_LEVEL := by
  show status32Of cfg &&& _ = _ ∧ status32Of cfg &&& _ = _
  unfold status32Of
  by_cases hc : cfg.stackChecking = true <;>
    simp only [hus, hc, if_true, if_false, Bool.false_eq_true, ite_true, ite_false] <;>
    exact ⟨by decide, by decide⟩

/-- Claim C10, witness: a kernel thread (`K_USER` clear) on the
userspace-capable configuration still has the US bit set. -/
theorem C10_witness :
    (new_thread cfgU 4096 1024 10 11 12 13 0 0).frame.status32 &&&
        ARC_V2_STATUS32_US = ARC_V2_STATUS32_US ∧
    (new_thread cfgU 4096 1024 10 11 12 13 0 0).frame.status32 &&&
        ARC_V2_STATUS32_E ARC_V2_DEF_IRQ_LEVEL =
      ARC_V2_STATUS32_E ARC_V2_DEF_IRQ_LEVEL :=
  C10_status32_us cfgU 4096 1024 10 11 12 13 0 0 (by decide)
